import Mathlib

/-!
Shallow embedding of the multi-agent orchestration core of this repository:
the message-bus history accessor (`src/multiagent/environment/environment.py`),
the agent reactor (`src/multiagent/roles/role.py`), the action retry wrapper
(`src/multiagent/actions/action.py`), the task executor
(`src/multiagent/tasks/task.py`) and the workflow manager
(`src/multiagent/workflow/workflow_manager.py`).

Awaited coroutine calls become ordinary function calls, mutation becomes
explicit state passing, side effects (publishing, callback invocation,
sleeping, invoking an agent or an action) are recorded in event traces, and
Python object identity is modelled by numeric ids.  External behaviour (what
an agent's or an action's `run` returns on each attempt) is supplied as an
explicit oracle argument, so the theorems quantify over every possible
behaviour of those collaborators.
-/

namespace MultiAgent

/-! ### Shared context (Python dict from description to result text) -/

/-- A Python dict keyed by task/dependency description, modelled as an
insertion-ordered association list with unique keys. -/
abbrev Ctx := List (String × String)

/-- Python `d[k] = v`: overwrite in place when the key exists, else append. -/
def ctxInsert (c : Ctx) (k v : String) : Ctx :=
  if c.any (fun p => p.1 == k) then
    c.map (fun p => if p.1 == k then (k, v) else p)
  else c ++ [(k, v)]

/-! ### Message (`schema/message.py`)

Only the fields the claims touch are modelled: `context` (payload),
`type`, `sent_from` and `cause_by`.  `id`, timestamps, metadata and
priority never influence the control flow under scrutiny. -/

inductive MessageType where
  | text | command | result | error | system | action | custom
deriving DecidableEq

structure Message where
  context : String
  type : MessageType
  sent_from : Option String
  cause_by : Option String
deriving DecidableEq

/-! ### Environment.get_history (`environment/environment.py` lines 45-64) -/

/-- The filtering step of `get_history`: Python `if filter_by:` treats both
`None` and the empty string as falsy (no filtering); otherwise it keeps the
messages whose `sent_from` or `cause_by` equals `filter_by`. -/
def filtered_history (history : List Message) (filter_by : Option String) :
    List Message :=
  match filter_by with
  | none => history
  | some f =>
    if f == "" then history
    else history.filter (fun m => m.sent_from == some f || m.cause_by == some f)

/-- `Environment.get_history(limit, filter_by)`.  Python
`if limit and limit > 0: history = history[-limit:]`: the slice keeps the
most recent `limit` entries and runs only for a truthy, strictly positive
`limit` (`limit = 0` is falsy, negative limits fail `limit > 0`). -/
def get_history (history : List Message) (limit : Option Int)
    (filter_by : Option String) : List Message :=
  let h := filtered_history history filter_by
  match limit with
  | none => h
  | some l => if 0 < l then h.drop (h.length - l.toNat) else h

/-- C10: for `limit` equal to 0 or any negative number, `get_history` returns
the entire stored history after optional filtering, unchanged; truncation to
the most recent `limit` entries happens only for strictly positive `limit`. -/
theorem get_history_nonpositive_limit (history : List Message)
    (filter_by : Option String) (l : Int) (h : l ≤ 0) :
    get_history history (some l) filter_by = filtered_history history filter_by ∧
    (∀ l2 : Int, 0 < l2 → get_history history (some l2) filter_by =
      (filtered_history history filter_by).drop
        ((filtered_history history filter_by).length - l2.toNat)) := by
  constructor
  · simp only [get_history]
    rw [if_neg (by omega)]
  · intro l2 hl2
    simp only [get_history]
    rw [if_pos hl2]

/-- A concrete message used by witnesses. -/
def msgW : Message := { context := "hi", type := .text, sent_from := some "a", cause_by := none }

/-- Witness for C10 at a concrete input: limit -3 on a one-message history. -/
theorem get_history_nonpositive_limit_witness :
    ((-3 : Int) ≤ 0) ∧
      get_history [msgW] (some (-3)) none = filtered_history [msgW] none :=
  ⟨by decide, (get_history_nonpositive_limit [msgW] none (-3) (by decide)).1⟩

/-- A Python `TypeError`, as raised when an unhashable object (a non-frozen
pydantic v2 model, whose generated `__eq__` leaves `__hash__ = None`) is used
as a set member, dict key or `lru_cache` argument. -/
inductive PyErr where
  | typeError (msg : String)
deriving DecidableEq

/-! ### Agent reactor (`roles/role.py`)

A `Role` holds a `RoleContext` (message buffer, action list, cursor `state`
starting at -1, pending action `todo`) plus a reaction mode and an optional
environment reference.  An action in the list is identified by its position;
`className` models `action.__class__.__name__`, which `_act` uses as the
publish cause.  What `action.run()` returns (or raises) is supplied as the
oracle `outcome : Nat → Except String String`, indexed by action position. -/

inductive RoleReactMode where
  | react | by_order | plan_and_act
deriving DecidableEq

structure ActionSpec where
  className : String
deriving DecidableEq

structure RoleState where
  name : String
  msg_buffer : List String
  state : Int
  todo : Option Nat
  actions : List ActionSpec
  react_mode : RoleReactMode
  hasEnv : Bool
deriving DecidableEq

inductive RoleEvent where
  | actionRun (idx : Nat)
  | published (m : Message)
deriving DecidableEq

/-- `Role._observe` (role.py 64-68): wrap the payload and append it to
`rc.msg_buffer`. -/
def observe (s : RoleState) (message : String) : RoleState :=
  { s with msg_buffer := s.msg_buffer ++ [message] }

/-- `Role._think` (role.py 73-107).  With no actions it returns false.  The
`react` branch inspects the latest buffered message and then does nothing
(`pass`).  The `plan_and_act` branch always enters its planning step —
`self._plan` can never have been set — and calls `self.get_plan(...)`, which
is decorated with `@lru_cache`: functools builds a cache key from
`(self, task)` and hashes `self`, but `Role` is a non-frozen pydantic v2
model (its generated `__eq__` leaves `__hash__ = None`), so the call raises
`TypeError: unhashable type: 'Role'` out of `_think`.  The remaining modes
fall through to the sequential cursor step: if `state < len(actions) - 1`,
advance the cursor, set `todo` to the action at the new cursor and return
true, else return false (note: `todo` is NOT cleared in that case). -/
def think (s : RoleState) : Except PyErr (RoleState × Bool) :=
  if s.actions.isEmpty then .ok (s, false)
  else if s.react_mode = .plan_and_act then
    .error (.typeError "unhashable type: Role")
  else if s.state < (s.actions.length : Int) - 1 then
    .ok ({ s with state := s.state + 1, todo := some (s.state + 1).toNat }, true)
  else .ok (s, false)

/-- `Role._act` (role.py 121-140): if `todo` is unset return `""`; otherwise
invoke its `run`.  On success, publish a message (sender = role name, cause =
the action's class name) when an environment is attached and return
`"<name> executed: <result>"`.  Any exception is caught and converted to the
text `"Action error: <e>"` — `_act` itself never raises. -/
def act (s : RoleState) (outcome : Nat → Except String String) :
    String × List RoleEvent :=
  match s.todo with
  | none => ("", [])
  | some i =>
    match outcome i with
    | .ok result =>
      (s.name ++ " executed: " ++ result,
       [.actionRun i] ++
         (if s.hasEnv then
            [.published { context := result, type := .text, sent_from := some s.name,
                          cause_by := some ((s.actions[i]?.map ActionSpec.className).getD "") }]
          else []))
    | .error e => ("Action error: " ++ e, [.actionRun i])

/-- `Role.run` (role.py 142-145): observe, think, act.  An exception raised
by `_think` (the plan_and_act TypeError) propagates out of `run`; otherwise
the boolean `_think` returns is ignored, and nothing clears `rc.todo`:
`_act` runs whatever is still pending. -/
def run (s : RoleState) (with_message : String)
    (outcome : Nat → Except String String) :
    Except PyErr (RoleState × String × List RoleEvent) :=
  let s1 := observe s with_message
  match think s1 with
  | .error e => .error e
  | .ok (s2, _) =>
    let ar := act s2 outcome
    .ok (s2, ar.1, ar.2)

/-- `Role.handle_message` (role.py 147-151): the same cycle, triggered by bus
delivery, discarding `_act`'s textual result. -/
def handle_message (s : RoleState) (message : Message)
    (outcome : Nat → Except String String) :
    Except PyErr (RoleState × List RoleEvent) :=
  let s1 := observe s message.context
  match think s1 with
  | .error e => .error e
  | .ok (s2, _) => .ok (s2, (act s2 outcome).2)

/-- The positions of the actions whose `run` was invoked during a trace. -/
def actionRuns (evs : List RoleEvent) : List Nat :=
  evs.filterMap (fun e => match e with | .actionRun i => some i | _ => none)

/-- Run a role over a sequence of seed messages with one outcome oracle per
invocation, collecting each invocation's event trace; a propagated exception
aborts the sequence (no further call is made). -/
def runSeq (s : RoleState) :
    List (String × (Nat → Except String String)) →
    RoleState × List (List RoleEvent)
  | [] => (s, [])
  | (m, oc) :: rest =>
    match run s m oc with
    | .error _ => (s, [])
    | .ok r =>
      let tail := runSeq r.1 rest
      (tail.1, r.2.2 :: tail.2)

lemma actionRuns_act (s : RoleState) (oc : Nat → Except String String) :
    actionRuns (act s oc).2 =
      (match s.todo with | none => [] | some i => [i]) := by
  match h : s.todo with
  | none => simp [act, h, actionRuns]
  | some i =>
    cases hoc : oc i <;>
      cases henv : s.hasEnv <;>
        simp [act, h, hoc, henv, actionRuns]

lemma run_step (s : RoleState) (m : String) (oc : Nat → Except String String)
    (hmode : s.react_mode ≠ .plan_and_act)
    (hne : ¬ s.actions.isEmpty) (hlt : s.state < (s.actions.length : Int) - 1) :
    ∃ out evs,
      run s m oc = .ok ({ s with msg_buffer := s.msg_buffer ++ [m],
                                 state := s.state + 1,
                                 todo := some (s.state + 1).toNat }, out, evs) ∧
      actionRuns evs = [(s.state + 1).toNat] := by
  have hth : think (observe s m) =
      .ok ({ s with msg_buffer := s.msg_buffer ++ [m], state := s.state + 1,
                    todo := some (s.state + 1).toNat }, true) := by
    simp [think, observe, hne, hlt, hmode]
  refine ⟨(act { s with msg_buffer := s.msg_buffer ++ [m], state := s.state + 1, todo := some (s.state + 1).toNat } oc).1, (act { s with msg_buffer := s.msg_buffer ++ [m], state := s.state + 1, todo := some (s.state + 1).toNat } oc).2, ?_, ?_⟩
  · simp [run, hth]
  · rw [actionRuns_act]

lemma run_stuck (s : RoleState) (m : String) (oc : Nat → Except String String)
    (hmode : s.react_mode ≠ .plan_and_act)
    (hne : ¬ s.actions.isEmpty) (hge : ¬ s.state < (s.actions.length : Int) - 1) :
    ∃ out evs,
      run s m oc = .ok ({ s with msg_buffer := s.msg_buffer ++ [m] }, out, evs) ∧
      actionRuns evs = (match s.todo with | none => [] | some i => [i]) ∧
      think (observe s m) = .ok ({ s with msg_buffer := s.msg_buffer ++ [m] }, false) := by
  have hth : think (observe s m) =
      .ok ({ s with msg_buffer := s.msg_buffer ++ [m] }, false) := by
    simp [think, observe, hne, hge, hmode]
  refine ⟨(act { s with msg_buffer := s.msg_buffer ++ [m] } oc).1,
    (act { s with msg_buffer := s.msg_buffer ++ [m] } oc).2, ?_, ?_, hth⟩
  · simp [run, hth]
  · rw [actionRuns_act]

/-- Counterexample to C3: a role with exactly 3 actions under the
sequential-by-order policy, invoked 4 times, runs the action at index 0, then
1, then 2 — and on the fourth invocation runs the action at index 2 AGAIN
(`run` ignores `_think`'s false and `rc.todo` still points at the third
action), contradicting the claim that no action's run is invoked on the
fourth call. -/
def roleC3 : RoleState :=
  { name := "R", msg_buffer := [], state := -1, todo := none,
    actions := [⟨"A1"⟩, ⟨"A2"⟩, ⟨"A3"⟩], react_mode := .by_order, hasEnv := false }

theorem role_fourth_invocation_reruns_last_action :
    (runSeq roleC3
        [("m1", fun _ => .ok "r1"), ("m2", fun _ => .ok "r2"),
         ("m3", fun _ => .ok "r3"), ("m4", fun _ => .ok "r4")]).2.map actionRuns
      = [[0], [1], [2], [2]] := by
  decide

/-- C3 (amended): for every agent with exactly 3 actions and a fresh cursor
under the sequential-by-order policy, four successive `run` invocations all
return normally and execute action 1, then action 2, then action 3; on the
fourth invocation `_think` selects no new action (it returns false and the
cursor stays put), but because `run` ignores `_think`'s result and `rc.todo`
is never cleared, `_act` re-invokes action 3 instead of invoking nothing. -/
theorem role_sequential_cursor (s : RoleState)
    (hmode : s.react_mode = .by_order)
    (hlen : s.actions.length = 3) (hstate : s.state = -1) (htodo : s.todo = none)
    (m1 m2 m3 m4 : String) (o1 o2 o3 o4 : Nat → Except String String) :
    ∃ s1 out1 evs1 s2 out2 evs2 s3 out3 evs3 s4 out4 evs4,
      run s m1 o1 = .ok (s1, out1, evs1) ∧ actionRuns evs1 = [0] ∧
      run s1 m2 o2 = .ok (s2, out2, evs2) ∧ actionRuns evs2 = [1] ∧
      run s2 m3 o3 = .ok (s3, out3, evs3) ∧ actionRuns evs3 = [2] ∧
      think (observe s3 m4) = .ok (observe s3 m4, false) ∧
      run s3 m4 o4 = .ok (s4, out4, evs4) ∧ actionRuns evs4 = [2] := by
  obtain ⟨nm, buf, st, td, acts, mode, env⟩ := s
  have hm : mode = .by_order := hmode
  subst hm
  have hl : acts.length = 3 := hlen
  have hs : st = -1 := hstate
  subst hs
  have ht : td = none := htodo
  subst ht
  obtain ⟨a, b, c, rfl⟩ := List.length_eq_three.mp hl
  obtain ⟨out1, evs1, he1, ha1⟩ :=
    run_step ⟨nm, buf, -1, none, [a, b, c], .by_order, env⟩ m1 o1
      (by simp) (by simp) (by norm_num)
  obtain ⟨out2, evs2, he2, ha2⟩ :=
    run_step ⟨nm, buf ++ [m1], -1 + 1, some ((-1 : Int) + 1).toNat,
        [a, b, c], .by_order, env⟩ m2 o2
      (by simp) (by simp) (by norm_num)
  obtain ⟨out3, evs3, he3, ha3⟩ :=
    run_step ⟨nm, (buf ++ [m1]) ++ [m2], -1 + 1 + 1, some ((-1 : Int) + 1 + 1).toNat,
        [a, b, c], .by_order, env⟩ m3 o3
      (by simp) (by simp) (by norm_num)
  obtain ⟨out4, evs4, he4, ha4, h4th⟩ :=
    run_stuck ⟨nm, ((buf ++ [m1]) ++ [m2]) ++ [m3], -1 + 1 + 1 + 1,
        some ((-1 : Int) + 1 + 1 + 1).toNat, [a, b, c], .by_order, env⟩ m4 o4
      (by simp) (by simp) (by norm_num)
  refine ⟨_, out1, evs1, _, out2, evs2, _, out3, evs3, _, out4, evs4,
    he1, ha1.trans (by norm_num),
    he2, ha2.trans (by norm_num),
    he3, ha3.trans (by first | (norm_num; rfl) | norm_num),
    h4th, he4, ha4.trans (by first | (norm_num; rfl) | norm_num)⟩

/-- Witness for the amended C3 theorem at a concrete role. -/
theorem role_sequential_cursor_witness :
    roleC3.react_mode = .by_order ∧ roleC3.actions.length = 3 ∧
    roleC3.state = -1 ∧ roleC3.todo = none ∧
    ∃ s1 out1 evs1 s2 out2 evs2 s3 out3 evs3 s4 out4 evs4,
      run roleC3 "w1" (fun _ => .ok "x") = .ok (s1, out1, evs1) ∧
      actionRuns evs1 = [0] ∧
      run s1 "w2" (fun _ => .ok "x") = .ok (s2, out2, evs2) ∧
      actionRuns evs2 = [1] ∧
      run s2 "w3" (fun _ => .ok "x") = .ok (s3, out3, evs3) ∧
      actionRuns evs3 = [2] ∧
      think (observe s3 "w4") = .ok (observe s3 "w4", false) ∧
      run s3 "w4" (fun _ => .ok "x") = .ok (s4, out4, evs4) ∧
      actionRuns evs4 = [2] :=
  ⟨rfl, rfl, rfl, rfl,
    role_sequential_cursor roleC3 rfl rfl rfl rfl "w1" "w2" "w3" "w4"
      (fun _ => .ok "x") (fun _ => .ok "x") (fun _ => .ok "x") (fun _ => .ok "x")⟩

/-- C8: whenever the reactor cycle reaches the act phase with a pending
action whose run raises, `_act` catches the exception and returns the
textual failure description `"Action error: <e>"`: `Role.run` returns that
text and `Role.handle_message` completes with the same trace, so neither
propagates the action failure.  Conversely, the only exception `run` can
propagate at all is the one `_think` itself raises (the plan_and_act
TypeError), before any action's run is invoked — a propagated exception is
never an action failure. -/
theorem role_act_never_raises (s : RoleState) (m : String)
    (oc : Nat → Except String String) (s2 : RoleState) (b : Bool)
    (i : Nat) (e : String)
    (hth : think (observe s m) = .ok (s2, b))
    (htodo : s2.todo = some i)
    (herr : oc i = .error e) :
    run s m oc = .ok (s2, "Action error: " ++ e, [.actionRun i]) ∧
    handle_message s { context := m, type := .text, sent_from := none,
                       cause_by := none } oc = .ok (s2, [.actionRun i]) ∧
    (∀ s3 m3 oc3 pe, run s3 m3 oc3 = .error pe →
      think (observe s3 m3) = .error pe) := by
  refine ⟨by simp [run, hth, act, htodo, herr],
    by simp [handle_message, hth, act, htodo, herr], ?_⟩
  intro s3 m3 oc3 pe h
  rw [run] at h
  cases ht : think (observe s3 m3) with
  | error e2 =>
    rw [ht] at h
    simp only [Except.error.injEq] at h
    rw [h]
  | ok p =>
    obtain ⟨s4, b2⟩ := p
    rw [ht] at h
    simp at h

/-- Witness data for C8: a one-action role whose action raises. -/
def roleC8 : RoleState :=
  { name := "R", msg_buffer := [], state := -1, todo := none,
    actions := [⟨"A"⟩], react_mode := .by_order, hasEnv := true }

def roleC8sel : RoleState :=
  { name := "R", msg_buffer := ["seed"], state := 0, todo := some 0,
    actions := [⟨"A"⟩], react_mode := .by_order, hasEnv := true }

theorem role_act_never_raises_witness :
    think (observe roleC8 "seed") = .ok (roleC8sel, true) ∧
    roleC8sel.todo = some 0 ∧
    run roleC8 "seed" (fun _ => .error "boom") =
      .ok (roleC8sel, "Action error: " ++ "boom", [.actionRun 0]) :=
  ⟨rfl, rfl,
    (role_act_never_raises roleC8 "seed" (fun _ => .error "boom") roleC8sel true
      0 "boom" rfl rfl rfl).1⟩

/-! ### Action retry wrapper (`actions/action.py` lines 58-79) -/

inductive ActErr where
  /-- The last attempt's error, re-raised after retries are exhausted. -/
  | attemptFailed (msg : String)
  /-- The `RuntimeError` branch: no attempt ran, so no error was captured
  (reachable only with `max_retries = 0`). -/
  | noAttempt
deriving DecidableEq

inductive ActEvent where
  | sleep (d : ℚ)
deriving DecidableEq

/-- `Action.run_with_retry`: `while retries < max_retries:` try `run` (the
oracle `attempt`, indexed by the number of failures so far); on failure
increment `retries` and, when attempts remain, sleep `retry_delay` and loop;
after the loop, re-raise the last error (or a RuntimeError if none ran). -/
def run_with_retry_go (max_retries : Nat) (retry_delay : ℚ)
    (attempt : Nat → Except String String) (retries : Nat) :
    List ActEvent × Except ActErr String :=
  if _h : retries < max_retries then
    match attempt retries with
    | .ok r => ([], .ok r)
    | .error e =>
      if retries + 1 < max_retries then
        let rest := run_with_retry_go max_retries retry_delay attempt (retries + 1)
        (.sleep retry_delay :: rest.1, rest.2)
      else ([], .error (.attemptFailed e))
  else ([], .error .noAttempt)
termination_by max_retries - retries

def run_with_retry (max_retries : Nat) (retry_delay : ℚ)
    (attempt : Nat → Except String String) : List ActEvent × Except ActErr String :=
  run_with_retry_go max_retries retry_delay attempt 0

/-! ### Task executor (`tasks/task.py`)

A task is identified by a numeric id (object identity).  `cfgs id` gives its
immutable configuration, a state map `Nat → TaskState` carries each task's
mutable `status`/`result` fields, and the oracle `attempt id n` gives the
outcome of the (n+1)-th `agent.run` call of one `execute` invocation of task
`id` (success text, an `asyncio.TimeoutError`, or another exception). -/

structure TaskState where
  status : String
  result : Option String
deriving DecidableEq

structure TaskCfg where
  description : String
  dependencies : List Nat
  timeout : Option ℚ
  max_retries : Nat
  retry_delay : ℚ
  has_on_success : Bool
  has_on_failure : Bool

inductive AttemptOutcome where
  | success (out : String)
  | timedOut
  | failure (msg : String)
deriving DecidableEq

inductive TaskErr where
  /-- `TimeoutError(f"任务执行超时: {self.timeout}秒")`. -/
  | timeout (t : Option ℚ)
  /-- The last non-timeout exception, re-raised. -/
  | failed (msg : String)
  /-- Fuel exhaustion of the dependency recursion (models the unbounded
  Python call stack; never reached by the claims, which execute tasks whose
  dependencies are already completed). -/
  | depthExhausted
deriving DecidableEq

inductive TaskEvent where
  | agentRun (id : Nat) (iter : Nat)
  | sleep (d : ℚ)
  | successCallback (id : Nat)
  | failureCallback (id : Nat)
deriving DecidableEq

def updState (σ : Nat → TaskState) (id : Nat) (ts : TaskState) : Nat → TaskState :=
  fun j => if j = id then ts else σ j

/-- The context merge inside `Task.execute` (task.py lines 55-57 and 66-69):
`for dep in self.dependencies: if dep.result: ctx[dep.description] = dep.result`.
A dependency result of `None` or `""` is falsy and contributes nothing; the
dependency's `status` field is never read here. -/
def mergeDeps (cfgs : Nat → TaskCfg) (σ : Nat → TaskState) (deps : List Nat)
    (ctx : Ctx) : Ctx :=
  deps.foldl (fun c d =>
    match (σ d).result with
    | none => c
    | some r => if r == "" then c else ctxInsert c (cfgs d).description r) ctx

/-- The retry loop of `Task.execute` (task.py lines 49-94), entered with
`retries = 0` (the `while retries <= max_retries` condition holds on entry
and is re-established by the guarded recursion).  Each iteration rebuilds
`ctx = context or \x7b\x7d` — when the caller's context is empty (falsy) a
fresh dict is created and the merge is invisible to the caller, which is why
an empty context stays empty — merges the dependency results, and invokes
`agent.run` (the oracle).  Success returns the result; a timeout breaks out
with no retry; any other failure increments `retries` and, if attempts
remain, sleeps `retry_delay` and loops, else breaks with the last error. -/
def taskLoop (cfgs : Nat → TaskCfg) (σ : Nat → TaskState) (id : Nat)
    (attempt : Nat → AttemptOutcome) (iter retries : Nat) (ctx : Ctx) :
    Ctx × List TaskEvent × Except TaskErr String :=
  let ctx1 := if ctx.isEmpty then ctx
              else mergeDeps cfgs σ (cfgs id).dependencies ctx
  match attempt iter with
  | .success out => (ctx1, [.agentRun id iter], .ok out)
  | .timedOut => (ctx1, [.agentRun id iter], .error (.timeout (cfgs id).timeout))
  | .failure msg =>
    if _h : retries + 1 ≤ (cfgs id).max_retries then
      let rest := taskLoop cfgs σ id attempt (iter + 1) (retries + 1) ctx1
      (rest.1, .agentRun id iter :: .sleep (cfgs id).retry_delay :: rest.2.1, rest.2.2)
    else (ctx1, [.agentRun id iter], .error (.failed msg))
termination_by (cfgs id).max_retries + 1 - retries
decreasing_by omega

/-- The body of `Task.execute` after the dependency pre-loop: set status
`running`, run the retry loop, then on success set status `completed`, store
the result and invoke `on_success` if present; on failure set status
`failed`, invoke `on_failure` if present and re-raise. -/
def taskExecuteCore (cfgs : Nat → TaskCfg) (attempt : Nat → Nat → AttemptOutcome)
    (id : Nat) (σ : Nat → TaskState) (ctx : Ctx) :
    (Nat → TaskState) × Ctx × List TaskEvent × Except TaskErr String :=
  let cfg := cfgs id
  let σ1 := updState σ id { status := "running", result := (σ id).result }
  let lr := taskLoop cfgs σ1 id (attempt id) 0 0 ctx
  match lr.2.2 with
  | .ok out =>
    (updState σ1 id { status := "completed", result := some out }, lr.1,
     lr.2.1 ++ (if cfg.has_on_success then [.successCallback id] else []), .ok out)
  | .error e =>
    (updState σ1 id { status := "failed", result := (σ1 id).result }, lr.1,
     lr.2.1 ++ (if cfg.has_on_failure then [.failureCallback id] else []), .error e)

mutual
/-- `Task.execute` (task.py lines 38-104): first recursively execute every
dependency whose status is not `completed` (each such call gets no context
argument, i.e. an empty dict), then run the core above.  A dependency's
exception propagates immediately. -/
def taskExecute (cfgs : Nat → TaskCfg) (attempt : Nat → Nat → AttemptOutcome) :
    Nat → Nat → (Nat → TaskState) → Ctx →
    (Nat → TaskState) × Ctx × List TaskEvent × Except TaskErr String
  | 0, _, σ, ctx => (σ, ctx, [], .error .depthExhausted)
  | fuel + 1, id, σ, ctx =>
    match execDeps cfgs attempt fuel (cfgs id).dependencies σ with
    | (σ1, evs1, .error e) => (σ1, ctx, evs1, .error e)
    | (σ1, evs1, .ok _) =>
      let core := taskExecuteCore cfgs attempt id σ1 ctx
      (core.1, core.2.1, evs1 ++ core.2.2.1, core.2.2.2)
termination_by fuel id σ ctx => (fuel, 0)

/-- The dependency pre-loop of `Task.execute`. -/
def execDeps (cfgs : Nat → TaskCfg) (attempt : Nat → Nat → AttemptOutcome) :
    Nat → List Nat → (Nat → TaskState) →
    (Nat → TaskState) × List TaskEvent × Except TaskErr Unit
  | _, [], σ => (σ, [], .ok ())
  | fuel, d :: ds, σ =>
    if (σ d).status == "completed" then execDeps cfgs attempt fuel ds σ
    else
      match taskExecute cfgs attempt fuel d σ [] with
      | (σ2, _, evs, .ok _) =>
        let rest := execDeps cfgs attempt fuel ds σ2
        (rest.1, evs ++ rest.2.1, rest.2.2)
      | (σ2, _, evs, .error e) => (σ2, evs, .error e)
termination_by fuel ds σ => (fuel, ds.length + 1)
end

lemma execDeps_completed (cfgs : Nat → TaskCfg) (attempt : Nat → Nat → AttemptOutcome)
    (fuel : Nat) :
    ∀ ds (σ : Nat → TaskState), (∀ d ∈ ds, (σ d).status = "completed") →
      execDeps cfgs attempt fuel ds σ = (σ, [], .ok ()) := by
  intro ds
  induction ds with
  | nil => intro σ _; rw [execDeps]
  | cons d ds ih =>
    intro σ hall
    have hd : ((σ d).status == "completed") = true := by
      simp [hall d (by simp)]
    rw [execDeps, hd]
    simp only [if_true]
    exact ih σ (fun x hx => hall x (by simp [hx]))

/-- C5: a task attempt that times out is immediately fatal: with the
dependencies already completed, `Task.execute` performs exactly one
`agent.run` attempt, sleeps never (no retry, whatever `max_retries` is), sets
the task status to `failed`, invokes the failure callback when present, and
raises the timeout failure. -/
theorem task_timeout_no_retry (cfgs : Nat → TaskCfg)
    (attempt : Nat → Nat → AttemptOutcome) (id : Nat) (σ : Nat → TaskState)
    (ctx : Ctx) (fuel : Nat)
    (hdeps : ∀ d ∈ (cfgs id).dependencies, (σ d).status = "completed")
    (htmo : ∃ t, (cfgs id).timeout = some t ∧ t ≠ 0)
    (hatt : attempt id 0 = .timedOut) :
    (taskExecute cfgs attempt (fuel + 1) id σ ctx).2.2.2 =
      .error (.timeout (cfgs id).timeout) ∧
    ((taskExecute cfgs attempt (fuel + 1) id σ ctx).1 id).status = "failed" ∧
    (taskExecute cfgs attempt (fuel + 1) id σ ctx).2.2.1 =
      [.agentRun id 0] ++
        (if (cfgs id).has_on_failure then [.failureCallback id] else []) ∧
    ((taskExecute cfgs attempt (fuel + 1) id σ ctx).2.2.1.filter
        (fun e => match e with | .agentRun _ _ => true | _ => false)).length = 1 ∧
    (∀ d, TaskEvent.sleep d ∉ (taskExecute cfgs attempt (fuel + 1) id σ ctx).2.2.1) := by
  have hpre := execDeps_completed cfgs attempt fuel (cfgs id).dependencies σ hdeps
  have hloop : (taskLoop cfgs
        (updState σ id { status := "running", result := (σ id).result }) id
        (attempt id) 0 0 ctx).2.1 = [.agentRun id 0] ∧
      (taskLoop cfgs
        (updState σ id { status := "running", result := (σ id).result }) id
        (attempt id) 0 0 ctx).2.2 = .error (.timeout (cfgs id).timeout) := by
    rw [taskLoop, hatt]
    exact ⟨rfl, rfl⟩
  have hc1 : (taskExecuteCore cfgs attempt id σ ctx).2.2.1 =
      [TaskEvent.agentRun id 0] ++
        (if (cfgs id).has_on_failure then [.failureCallback id] else []) := by
    simp only [taskExecuteCore, hloop.2]
    rw [hloop.1]
  have hc2 : (taskExecuteCore cfgs attempt id σ ctx).2.2.2 =
      .error (.timeout (cfgs id).timeout) := by
    simp [taskExecuteCore, hloop.2]
  have hc3 : ((taskExecuteCore cfgs attempt id σ ctx).1 id).status = "failed" := by
    simp only [taskExecuteCore, hloop.2]
    simp [updState]
  have hred : (taskExecute cfgs attempt (fuel + 1) id σ ctx).2.2.1 =
        (taskExecuteCore cfgs attempt id σ ctx).2.2.1 ∧
      (taskExecute cfgs attempt (fuel + 1) id σ ctx).2.2.2 =
        (taskExecuteCore cfgs attempt id σ ctx).2.2.2 ∧
      (taskExecute cfgs attempt (fuel + 1) id σ ctx).1 =
        (taskExecuteCore cfgs attempt id σ ctx).1 := by
    rw [taskExecute, hpre]
    exact ⟨rfl, rfl, rfl⟩
  refine ⟨?_, ?_, ?_, ?_, ?_⟩
  · rw [hred.2.1, hc2]
  · rw [hred.2.2, hc3]
  · rw [hred.1, hc1]
  · rw [hred.1, hc1]
    cases h : (cfgs id).has_on_failure <;> simp [h, List.filter]
  · intro d
    rw [hred.1, hc1]
    cases h : (cfgs id).has_on_failure <;> simp [h]

/-- Concrete data for task witnesses. -/
def cfgsW5 : Nat → TaskCfg :=
  fun _ => { description := "t", dependencies := [], timeout := some 5,
             max_retries := 3, retry_delay := 1, has_on_success := false,
             has_on_failure := true }

def σW : Nat → TaskState := fun _ => { status := "pending", result := none }

/-- Witness for C5 at a concrete task whose only attempt times out. -/
theorem task_timeout_no_retry_witness :
    ((cfgsW5 0).timeout = some 5 ∧ (5 : ℚ) ≠ 0) ∧
    (taskExecute cfgsW5 (fun _ _ => .timedOut) 1 0 σW []).2.2.2 =
      .error (.timeout (some 5)) :=
  ⟨⟨rfl, by norm_num⟩,
    (task_timeout_no_retry cfgsW5 (fun _ _ => .timedOut) 0 σW [] 0
      (by simp [cfgsW5]) ⟨5, rfl, by norm_num⟩ rfl).1⟩

/-- C7: with `max_retries = 3`, if the first two attempts raise non-timeout
failures and the third succeeds, `Task.execute` returns the third attempt's
output, the status ends `completed`, and one `retry_delay` sleep separates
each pair of consecutive attempts; likewise `Action.run_with_retry` with
`max_retries = 3` returns the third attempt's result after two sleeps. -/
theorem task_retry_then_succeed (cfgs : Nat → TaskCfg)
    (attempt : Nat → Nat → AttemptOutcome) (id : Nat) (σ : Nat → TaskState)
    (ctx : Ctx) (fuel : Nat) (out m0 m1 : String)
    (hdeps : ∀ d ∈ (cfgs id).dependencies, (σ d).status = "completed")
    (hmax : (cfgs id).max_retries = 3)
    (h0 : attempt id 0 = .failure m0) (h1 : attempt id 1 = .failure m1)
    (h2 : attempt id 2 = .success out)
    (attemptA : Nat → Except String String) (outA e0 e1 : String) (delayA : ℚ)
    (ha0 : attemptA 0 = .error e0) (ha1 : attemptA 1 = .error e1)
    (ha2 : attemptA 2 = .ok outA) :
    (taskExecute cfgs attempt (fuel + 1) id σ ctx).2.2.2 = .ok out ∧
    ((taskExecute cfgs attempt (fuel + 1) id σ ctx).1 id).status = "completed" ∧
    ((taskExecute cfgs attempt (fuel + 1) id σ ctx).1 id).result = some out ∧
    (taskExecute cfgs attempt (fuel + 1) id σ ctx).2.2.1 =
      [.agentRun id 0, .sleep (cfgs id).retry_delay, .agentRun id 1,
       .sleep (cfgs id).retry_delay, .agentRun id 2] ++
        (if (cfgs id).has_on_success then [.successCallback id] else []) ∧
    run_with_retry 3 delayA attemptA = ([.sleep delayA, .sleep delayA], .ok outA) := by
  have hpre := execDeps_completed cfgs attempt fuel (cfgs id).dependencies σ hdeps
  have hl2 : ∀ c, (taskLoop cfgs
        (updState σ id { status := "running", result := (σ id).result }) id
        (attempt id) 2 2 c).2.1 = [.agentRun id 2] ∧
      (taskLoop cfgs
        (updState σ id { status := "running", result := (σ id).result }) id
        (attempt id) 2 2 c).2.2 = .ok out := by
    intro c; rw [taskLoop, h2]; exact ⟨rfl, rfl⟩
  have hl1 : ∀ c, (taskLoop cfgs
        (updState σ id { status := "running", result := (σ id).result }) id
        (attempt id) 1 1 c).2.1 =
        [.agentRun id 1, .sleep (cfgs id).retry_delay, .agentRun id 2] ∧
      (taskLoop cfgs
        (updState σ id { status := "running", result := (σ id).result }) id
        (attempt id) 1 1 c).2.2 = .ok out := by
    intro c
    have h11 : 1 + 1 ≤ (cfgs id).max_retries := by omega
    rw [taskLoop]
    simp only [h1, h11, dif_pos]
    exact ⟨by rw [(hl2 _).1], (hl2 _).2⟩
  have hl0 : (taskLoop cfgs
        (updState σ id { status := "running", result := (σ id).result }) id
        (attempt id) 0 0 ctx).2.1 =
        [.agentRun id 0, .sleep (cfgs id).retry_delay, .agentRun id 1,
         .sleep (cfgs id).retry_delay, .agentRun id 2] ∧
      (taskLoop cfgs
        (updState σ id { status := "running", result := (σ id).result }) id
        (attempt id) 0 0 ctx).2.2 = .ok out := by
    have h01 : 0 + 1 ≤ (cfgs id).max_retries := by omega
    rw [taskLoop]
    simp only [h0, h01, dif_pos]
    exact ⟨by rw [(hl1 _).1], (hl1 _).2⟩
  have hc1 : (taskExecuteCore cfgs attempt id σ ctx).2.2.1 =
      [.agentRun id 0, .sleep (cfgs id).retry_delay, .agentRun id 1,
       .sleep (cfgs id).retry_delay, .agentRun id 2] ++
        (if (cfgs id).has_on_success then [.successCallback id] else []) := by
    simp only [taskExecuteCore, hl0.2]
    rw [hl0.1]
  have hc2 : (taskExecuteCore cfgs attempt id σ ctx).2.2.2 = .ok out := by
    simp [taskExecuteCore, hl0.2]
  have hc3 : ((taskExecuteCore cfgs attempt id σ ctx).1 id) =
      { status := "completed", result := some out } := by
    simp only [taskExecuteCore, hl0.2]
    simp [updState]
  have hred : (taskExecute cfgs attempt (fuel + 1) id σ ctx).2.2.1 =
        (taskExecuteCore cfgs attempt id σ ctx).2.2.1 ∧
      (taskExecute cfgs attempt (fuel + 1) id σ ctx).2.2.2 =
        (taskExecuteCore cfgs attempt id σ ctx).2.2.2 ∧
      (taskExecute cfgs attempt (fuel + 1) id σ ctx).1 =
        (taskExecuteCore cfgs attempt id σ ctx).1 := by
    rw [taskExecute, hpre]
    exact ⟨rfl, rfl, rfl⟩
  have hrwr : run_with_retry 3 delayA attemptA =
      ([.sleep delayA, .sleep delayA], .ok outA) := by
    rw [run_with_retry]
    rw [run_with_retry_go]; simp only [ha0]; norm_num
    rw [run_with_retry_go]; simp only [ha1]; norm_num
    rw [run_with_retry_go]; simp only [ha2]; norm_num
  refine ⟨?_, ?_, ?_, ?_, hrwr⟩
  · rw [hred.2.1, hc2]
  · rw [hred.2.2, hc3]
  · rw [hred.2.2, hc3]
  · rw [hred.1, hc1]

/-- Concrete attempt oracle and config for the C7 witness. -/
def cfgsW7 : Nat → TaskCfg :=
  fun _ => { description := "t", dependencies := [], timeout := none,
             max_retries := 3, retry_delay := 2, has_on_success := true,
             has_on_failure := false }

def attW7 : Nat → Nat → AttemptOutcome :=
  fun _ n => if n = 0 then .failure "f0" else if n = 1 then .failure "f1"
             else .success "third"

def attA7 : Nat → Except String String :=
  fun n => if n = 0 then .error "g0" else if n = 1 then .error "g1"
           else .ok "actionThird"

/-- Witness for C7 at concrete inputs. -/
theorem task_retry_then_succeed_witness :
    (cfgsW7 0).max_retries = 3 ∧ attW7 0 2 = .success "third" ∧
    (taskExecute cfgsW7 attW7 1 0 σW []).2.2.2 = .ok "third" ∧
    run_with_retry 3 7 attA7 = ([.sleep 7, .sleep 7], .ok "actionThird") := by
  have h := task_retry_then_succeed cfgsW7 attW7 0 σW [] 0 "third" "f0" "f1"
    (by simp [cfgsW7]) rfl rfl rfl rfl attA7 "actionThird" "g0" "g1" 7 rfl rfl rfl
  exact ⟨rfl, rfl, h.1, h.2.2.2.2⟩

/-- C9: in the context merge of `Task.execute`, a dependency's result is
written under the dependency's description only when it is non-None and
non-empty; a dependency whose result is `None` or `""` contributes no entry
(the context is passed on unchanged); and the merge never consults the
dependency's `status` field — any two state maps agreeing on `result` merge
identically, whatever the statuses. -/
theorem merge_deps_truthiness (cfgs : Nat → TaskCfg) (σ σ2 : Nat → TaskState)
    (d : Nat) (ds : List Nat) (ctx : Ctx) :
    ((σ d).result = none →
      mergeDeps cfgs σ (d :: ds) ctx = mergeDeps cfgs σ ds ctx) ∧
    ((σ d).result = some "" →
      mergeDeps cfgs σ (d :: ds) ctx = mergeDeps cfgs σ ds ctx) ∧
    (∀ s, (σ d).result = some s → s ≠ "" →
      mergeDeps cfgs σ (d :: ds) ctx =
        mergeDeps cfgs σ ds (ctxInsert ctx (cfgs d).description s)) ∧
    ((∀ i, (σ i).result = (σ2 i).result) →
      mergeDeps cfgs σ ds ctx = mergeDeps cfgs σ2 ds ctx) := by
  refine ⟨?_, ?_, ?_, ?_⟩
  · intro h; simp [mergeDeps, h]
  · intro h; simp [mergeDeps, h]
  · intro s h hs; simp [mergeDeps, h, hs]
  · intro h
    induction ds generalizing ctx with
    | nil => rfl
    | cons x xs ih =>
      simp only [mergeDeps, List.foldl_cons] at ih ⊢
      rw [h x]
      exact ih _

/-- Concrete state maps for the C9 witness: `σC9a` and `σC9b` agree on
results but disagree on every status; dependency 0 has an empty-string
result, dependency 1 the result "r1". -/
def σC9a : Nat → TaskState :=
  fun n => if n = 0 then { status := "completed", result := some "" }
           else { status := "completed", result := some "r1" }

def σC9b : Nat → TaskState :=
  fun n => if n = 0 then { status := "pending", result := some "" }
           else { status := "failed", result := some "r1" }

def cfgsC9 : Nat → TaskCfg :=
  fun n => { description := if n = 0 then "d0" else "d1", dependencies := [],
             timeout := none, max_retries := 3, retry_delay := 1,
             has_on_success := false, has_on_failure := false }

/-- Witness for C9: the empty-string dependency adds nothing, the truthy one
adds its entry, and replacing every status leaves the merge unchanged. -/
theorem merge_deps_truthiness_witness :
    (mergeDeps cfgsC9 σC9a [0] [] = mergeDeps cfgsC9 σC9a [] []) ∧
    (mergeDeps cfgsC9 σC9a [1] [] =
      mergeDeps cfgsC9 σC9a [] (ctxInsert [] (cfgsC9 1).description "r1")) ∧
    (mergeDeps cfgsC9 σC9a [0, 1] [] = mergeDeps cfgsC9 σC9b [0, 1] []) :=
  ⟨(merge_deps_truthiness cfgsC9 σC9a σC9b 0 [] []).2.1 rfl,
   (merge_deps_truthiness cfgsC9 σC9a σC9b 1 [] []).2.2.1 "r1" rfl (by decide),
   (merge_deps_truthiness cfgsC9 σC9a σC9b 0 [0, 1] []).2.2.2
     (fun i => by by_cases h : i = 0 <;> simp [σC9a, σC9b, h])⟩

/-! ### Workflow manager (`workflow/workflow_manager.py`)

Tasks are graph nodes identified by numeric ids (Python object identity, the
key used by the `visited`/`temp_visited` sets).  A workflow's task list is a
list of `TaskSpec`s; `deps` holds the ids of the dependency task objects.
`Closed` says every dependency is itself one of the workflow's tasks — the
situation `set_dependencies` (which only links existing tasks) produces. -/

structure TaskSpec where
  id : Nat
  description : String
  deps : List Nat
deriving DecidableEq

def findTask (tasks : List TaskSpec) (i : Nat) : Option TaskSpec :=
  tasks.find? (fun t => t.id == i)

/-- The dependency ids of the task object with id `i` ([] if no such task). -/
def depsOf (tasks : List TaskSpec) (i : Nat) : List Nat :=
  ((findTask tasks i).map TaskSpec.deps).getD []

def descOf (tasks : List TaskSpec) (i : Nat) : String :=
  ((findTask tasks i).map TaskSpec.description).getD ""

def idsOf (tasks : List TaskSpec) : List Nat := tasks.map TaskSpec.id

/-- `edgeTo tasks a b`: task `a` depends on task `b`. -/
def edgeTo (tasks : List TaskSpec) (a b : Nat) : Prop := b ∈ depsOf tasks a

/-- `WorkflowManager._build_execution_order` (workflow_manager.py 204-240).
The function intends a depth-first topological sort with cycle detection
(`ValueError(f"检测到循环依赖: ...")` when a task is already on the DFS
path), keyed by Task objects in the Python sets `visited` and
`temp_visited`.  But `Task` is a non-frozen pydantic v2 model: pydantic
generates `__eq__`, which leaves `__hash__ = None`, so Task objects are
unhashable.  The outer loop's first operation on any non-empty workflow,
`if task not in visited:`, hashes the task (set membership hashes its key
even on an empty set) and raises `TypeError: unhashable type: 'Task'`.  The
DFS body — and with it both the cycle `ValueError` and the returned order —
is unreachable; only an empty workflow survives the loop and yields the
empty order. -/
def build_execution_order (tasks : List TaskSpec) : Except PyErr (List Nat) :=
  match tasks with
  | [] => .ok []
  | _ :: _ => .error (.typeError "unhashable type: Task")

inductive WorkflowStatus where
  | pending | running | completed | failed | paused
deriving DecidableEq

structure Workflow where
  name : String
  description : String
  tasks : List TaskSpec
  status : WorkflowStatus
  result : Option Ctx
deriving DecidableEq

inductive WfErr where
  /-- A propagated Python `TypeError` (from `_build_execution_order`'s
  membership test on the unhashable `Task`). -/
  | typeError (msg : String)
  /-- The exception a task's `execute` raised, tagged with the task. -/
  | taskFailed (id : Nat) (msg : String)
deriving DecidableEq

inductive WfEvent where
  /-- `environment.publish(Message(context, type, cause_by))`. -/
  | publish (ty : MessageType) (content : String) (cause : String)
  /-- `task.execute(ctx)` invoked with the given shared context. -/
  | runTask (id : Nat) (ctx : Ctx)
deriving DecidableEq

/-- The task loop of `execute_workflow` (workflow_manager.py 147-186).
`exec t ctx` abstracts `task.execute(ctx)`: it may rewrite the shared
context (the dependency merge mutates the caller's dict) and returns the
task's result text or the text of the exception it raised.  Per task:
publish a SYSTEM start message, execute, and on success store the result in
`results` and in the shared context under the task's description and publish
a RESULT message; on failure publish an ERROR message caused by the task's
description and abort with the error (no later task executes). -/
def runTasks (tasks : List TaskSpec) (exec : Nat → Ctx → Ctx × Except String String) :
    List Nat → Ctx → Ctx → List WfEvent × Except WfErr Ctx
  | [], _, results => ([], .ok results)
  | t :: ts, ctx, results =>
    let d := descOf tasks t
    match exec t ctx with
    | (ctx1, .ok res) =>
      let rest := runTasks tasks exec ts (ctxInsert ctx1 d res)
        (ctxInsert results d res)
      (.publish .system ("开始执行任务: " ++ d) "workflow_manager" ::
         .runTask t ctx :: .publish .result res d :: rest.1, rest.2)
    | (_, .error e) =>
      ([.publish .system ("开始执行任务: " ++ d) "workflow_manager",
        .runTask t ctx, .publish .error e d], .error (.taskFailed t e))

/-- `WorkflowManager.execute_workflow` (workflow_manager.py 126-202), for the
workflow the manager looked up (the unknown-name `ValueError` is outside the
claims).  Marks the workflow running, builds the execution order, runs the
tasks in that order against the shared context, and on full success stores
the accumulated results and marks the workflow completed; any exception —
including the TypeError `_build_execution_order` raises on every non-empty
workflow — is caught by the outer handler, which marks the workflow failed
and re-raises.  Returns the updated workflow, the event trace, and the
result. -/
def execute_workflow (w : Workflow) (exec : Nat → Ctx → Ctx × Except String String)
    (context : Ctx) : Workflow × List WfEvent × Except WfErr Ctx :=
  match build_execution_order w.tasks with
  | .error (.typeError m) => ({ w with status := .failed }, [], .error (.typeError m))
  | .ok order =>
    match runTasks w.tasks exec order context [] with
    | (evs, .ok results) =>
      ({ w with status := .completed, result := some results }, evs, .ok results)
    | (evs, .error e) => ({ w with status := .failed }, evs, .error e)

/-- The ids of the tasks whose `execute` was invoked, in invocation order. -/
def runTaskIds (evs : List WfEvent) : List Nat :=
  evs.filterMap (fun e => match e with | .runTask i _ => some i | _ => none)

lemma edge_src_mem (tasks : List TaskSpec) (a b : Nat) (h : edgeTo tasks a b) :
    a ∈ idsOf tasks := by
  simp only [edgeTo, depsOf] at h
  cases hf : findTask tasks a with
  | none => rw [hf] at h; simp at h
  | some task =>
    have hf2 : tasks.find? (fun t => t.id == a) = some task := hf
    have hmem := List.mem_of_find?_eq_some hf2
    have hid := List.find?_some hf2
    have hida : task.id = a := by simpa using hid
    exact hida ▸ List.mem_map.mpr ⟨task, hmem, rfl⟩

lemma exists_edge_of_transgen {r : Nat → Nat → Prop} (x y : Nat)
    (h : Relation.TransGen r x y) : ∃ z, r x z := by
  induction h with
  | single he => exact ⟨_, he⟩
  | tail _ _ ih => exact ih

/-- The cyclic two-task workflow of the spec's testable property: T1 and T2
each list the other as a dependency. -/
def cycTasks : List TaskSpec := [⟨0, "T1", [1]⟩, ⟨1, "T2", [0]⟩]

def cycW : Workflow :=
  { name := "wf", description := "", tasks := cycTasks, status := .pending,
    result := none }

/-- An acyclic two-task chain: task B depends on task A. -/
def chainTasks : List TaskSpec := [⟨0, "A", []⟩, ⟨1, "B", [0]⟩]

def chainW : Workflow :=
  { name := "wf2", description := "", tasks := chainTasks, status := .pending,
    result := none }

lemma chain_depsOf : ∀ a, depsOf chainTasks a =
    if a = 0 then [] else if a = 1 then [0] else [] := by
  intro a
  match a with
  | 0 => decide
  | 1 => decide
  | (n + 2) =>
    have h0 : ((0 : Nat) == n + 2) = false := by simp
    have h1 : ((1 : Nat) == n + 2) = false := by simp +arith
    simp only [depsOf, findTask, chainTasks, List.find?, h0, h1]
    rfl

lemma chain_no_cycle : ∀ i, ¬ Relation.TransGen (edgeTo chainTasks) i i := by
  have hchar : ∀ a b, edgeTo chainTasks a b → a = 1 ∧ b = 0 := by
    intro a b h
    have h2 : b ∈ depsOf chainTasks a := h
    rw [chain_depsOf] at h2
    by_cases ha0 : a = 0
    · rw [if_pos ha0] at h2; simp at h2
    · rw [if_neg ha0] at h2
      by_cases ha1 : a = 1
      · rw [if_pos ha1] at h2
        simp at h2
        exact ⟨ha1, h2⟩
      · rw [if_neg ha1] at h2; simp at h2
  have htg : ∀ x y, Relation.TransGen (edgeTo chainTasks) x y → x = 1 ∧ y = 0 := by
    intro x y h
    induction h with
    | single he => exact hchar _ _ he
    | tail _ he ih =>
      have hb := hchar _ _ he
      exact ⟨ih.1, by omega⟩
  intro i hi
  have := htg i i hi
  omega

/-- A three-task chain A ← B ← C for the C6 witness. -/
def triTasks : List TaskSpec := [⟨0, "A", []⟩, ⟨1, "B", [0]⟩, ⟨2, "C", [1]⟩]

def triW : Workflow :=
  { name := "wf3", description := "", tasks := triTasks, status := .pending,
    result := none }

/-- The executor that succeeds everywhere except on task 1. -/
def execBoom : Nat → Ctx → Ctx × Except String String :=
  fun i c => if i = 1 then (c, .error "boom") else (c, .ok "ok")

/-- C1 (code bug): for every workflow whose task dependency graph contains a
cycle, `execute_workflow` does fail before any task body runs — the event
trace is empty, so no task's `execute` is invoked and no task status changes
to running — but the failure is `TypeError: unhashable type: 'Task'` from
the very first set-membership test of `_build_execution_order`, not the
cycle-detected `ValueError` the claim (and the code's own, unreachable
cycle-detection branch) describes. -/
theorem execute_workflow_cycle_typeerror (w : Workflow)
    (exec : Nat → Ctx → Ctx × Except String String) (context : Ctx)
    (hcyc : ∃ i, Relation.TransGen (edgeTo w.tasks) i i) :
    w.tasks ≠ [] ∧
    build_execution_order w.tasks = .error (.typeError "unhashable type: Task") ∧
    execute_workflow w exec context =
      ({ w with status := .failed }, [],
       .error (.typeError "unhashable type: Task")) := by
  obtain ⟨i, hi⟩ := hcyc
  obtain ⟨z, hz⟩ := exists_edge_of_transgen i i hi
  have hmem : i ∈ idsOf w.tasks := edge_src_mem w.tasks i z hz
  have hne : w.tasks ≠ [] := by
    intro h
    rw [h] at hmem
    simp [idsOf] at hmem
  have hb : build_execution_order w.tasks =
      .error (.typeError "unhashable type: Task") := by
    cases ht : w.tasks with
    | nil => exact absurd ht hne
    | cons a l => rfl
  refine ⟨hne, hb, ?_⟩
  simp only [execute_workflow, hb]

/-- Witness for C1 at the concrete cyclic two-task workflow. -/
theorem execute_workflow_cycle_typeerror_witness :
    Relation.TransGen (edgeTo cycW.tasks) 0 0 ∧
    (cycW.tasks ≠ [] ∧
     build_execution_order cycW.tasks =
       .error (.typeError "unhashable type: Task") ∧
     execute_workflow cycW (fun _ c => (c, .ok "x")) [] =
       ({ cycW with status := .failed }, [],
        .error (.typeError "unhashable type: Task"))) := by
  have h01 : edgeTo cycW.tasks 0 1 := by
    show (1 : Nat) ∈ depsOf cycW.tasks 0
    decide
  have h10 : edgeTo cycW.tasks 1 0 := by
    show (0 : Nat) ∈ depsOf cycW.tasks 1
    decide
  have hcyc : Relation.TransGen (edgeTo cycW.tasks) 0 0 :=
    Relation.TransGen.tail (Relation.TransGen.single h01) h10
  exact ⟨hcyc,
    execute_workflow_cycle_typeerror cycW (fun _ c => (c, .ok "x")) [] ⟨0, hcyc⟩⟩

/-- C2 (code bug): for every workflow with at least one task — in particular
every non-empty workflow whose dependency graph is acyclic, the claim's
domain — `_build_execution_order` raises `TypeError: unhashable type: 'Task'`
at its first membership test: no topological order is ever returned, and
`execute_workflow` executes no task and marks the workflow failed with an
empty trace, instead of the claimed in-order execution with context
folding. -/
theorem execute_workflow_topo_typeerror (w : Workflow)
    (exec : Nat → Ctx → Ctx × Except String String) (context : Ctx)
    (hne : w.tasks ≠ [])
    (hacyc : ∀ i, ¬ Relation.TransGen (edgeTo w.tasks) i i) :
    build_execution_order w.tasks = .error (.typeError "unhashable type: Task") ∧
    (∀ order, build_execution_order w.tasks ≠ .ok order) ∧
    execute_workflow w exec context =
      ({ w with status := .failed }, [],
       .error (.typeError "unhashable type: Task")) := by
  have hb : build_execution_order w.tasks =
      .error (.typeError "unhashable type: Task") := by
    cases ht : w.tasks with
    | nil => exact absurd ht hne
    | cons a l => rfl
  refine ⟨hb, ?_, ?_⟩
  · intro order h
    rw [hb] at h
    simp at h
  · simp only [execute_workflow, hb]

/-- Witness for C2 at the concrete acyclic two-task chain. -/
theorem execute_workflow_topo_typeerror_witness :
    chainW.tasks ≠ [] ∧
    (∀ i, ¬ Relation.TransGen (edgeTo chainW.tasks) i i) ∧
    (build_execution_order chainW.tasks =
       .error (.typeError "unhashable type: Task") ∧
     (∀ order, build_execution_order chainW.tasks ≠ .ok order) ∧
     execute_workflow chainW (fun _ c => (c, .ok "r")) [] =
       ({ chainW with status := .failed }, [],
        .error (.typeError "unhashable type: Task"))) :=
  ⟨by decide, chain_no_cycle,
    execute_workflow_topo_typeerror chainW (fun _ c => (c, .ok "r")) []
      (by decide) chain_no_cycle⟩

/-- C6 (code bug): the claimed per-task failure handling is dead code.  At
the concrete three-task chain whose middle task's `execute` would raise,
`execute_workflow` never reaches the task loop: `_build_execution_order`
raises `TypeError: unhashable type: 'Task'` first, so no task's `execute` is
invoked, nothing — in particular no ERROR message — is published, the stored
`result` stays `None`, and the workflow ends failed with the TypeError, not
with the task's own error. -/
theorem execute_workflow_task_failure_typeerror :
    execute_workflow triW execBoom [] =
      ({ triW with status := .failed }, [],
       .error (.typeError "unhashable type: Task")) ∧
    runTaskIds (execute_workflow triW execBoom []).2.1 = [] ∧
    (execute_workflow triW execBoom []).1.result = none ∧
    ∀ m c2, WfEvent.publish .error m c2 ∉ (execute_workflow triW execBoom []).2.1 := by
  refine ⟨rfl, rfl, rfl, ?_⟩
  intro m c2 hmem
  have h : (execute_workflow triW execBoom []).2.1 = [] := rfl
  rw [h] at hmem
  simp at hmem

end MultiAgent
